import Mathlib

/-!
Verification of the metrics and pattern-detection engine of the
project-health-monitor dashboard (the `calculations` module).

The embedding translates the TypeScript calculation functions into Lean:
JavaScript numbers are modelled as `ℚ` (all arithmetic appearing in the
module is exact on the rationals), `Date | null` fields as `Option ℤ`
(timestamps; `new Date(a) <= new Date(b)` becomes `≤` on `ℤ`), and
`Math.round` as `round` on `ℚ` (both round halves toward `+∞`).
Task fields never read by any function of the calculations module
(portfolioName, typeOfProject, workPackageName, taskId, taskName,
baseline dates, ignoredDependencies, totalReassessments and the four
hour-tracking fields) are omitted from the record.  Free-text fields of
the derived entities whose only content is presentation formatting
(`description` / `recommendation` of BehaviouralPattern, and the
`toFixed(1)` interpolation inside risk strings) are abstracted: risk
strings become a tagged `Risk` value carrying the interpolated number.
-/

namespace PHM

/-- RAG traffic-light value, `'Red' | 'Amber' | 'Green'`. -/
inductive RAG
  | Red
  | Amber
  | Green
deriving DecidableEq, Repr

/-- Task status, `'Completed' | 'In Progress' | 'Not Started'`. -/
inductive Status
  | Completed
  | InProgress
  | NotStarted
deriving DecidableEq, Repr

/-- The task record (fields read by the calculations module). -/
structure Task where
  projectName : String
  functionalManager : String
  plannedDuration : ℚ
  actualDuration : ℚ
  assignedResource : String
  plannedBudget : ℚ
  totalSpent : ℚ
  status : Status
  plannedStart : Option ℤ
  actualStart : Option ℤ
  plannedEnd : Option ℤ
  actualEnd : Option ℤ
  resourceUtilisation : ℚ
  projectHealthRAG : RAG
  criticalPathVolatility : ℚ
  criticalPathRisk : Bool
deriving DecidableEq, Repr

/-- `if (!t.plannedEnd || !t.actualEnd) return false; return new Date(t.actualEnd) <= new Date(t.plannedEnd)`. -/
def onTimeEnd (t : Task) : Bool :=
  match t.plannedEnd, t.actualEnd with
  | some p, some a => a ≤ p
  | _, _ => false

/-- `t.plannedStart && t.actualStart && new Date(t.actualStart) <= new Date(t.plannedStart)`. -/
def onTimeStart (t : Task) : Bool :=
  match t.plannedStart, t.actualStart with
  | some p, some a => a ≤ p
  | _, _ => false

/-- The `filteredTasks` computation shared by `calculateForecastAccuracy`
and `calculateDurationVariance`: Completed tasks, optionally restricted
to one functional manager. -/
def completedFiltered (tasks : List Task) (manager : Option String) : List Task :=
  match manager with
  | some m => tasks.filter (fun t => t.functionalManager = m ∧ t.status = Status.Completed)
  | none => tasks.filter (fun t => t.status = Status.Completed)

/-- `calculateForecastAccuracy` of the calculations module. -/
def calculateForecastAccuracy (tasks : List Task) (manager : Option String) : ℚ :=
  let filteredTasks := completedFiltered tasks manager
  if filteredTasks.length = 0 then 0
  else
    let onTime := (filteredTasks.filter onTimeEnd).length
    (onTime : ℚ) / (filteredTasks.length : ℚ) * 100

/-- `calculateDurationVariance` of the calculations module. -/
def calculateDurationVariance (tasks : List Task) (manager : Option String) : ℚ :=
  let filteredTasks := completedFiltered tasks manager
  let validTasks := filteredTasks.filter (fun t => 0 < t.plannedDuration ∧ 0 < t.actualDuration)
  if validTasks.length = 0 then 0
  else
    let variances := validTasks.map (fun t =>
      (t.actualDuration - t.plannedDuration) / t.plannedDuration * 100)
    variances.sum / (validTasks.length : ℚ)

/-- The generic-resource patterns of the regex
`/resource_|generic|tbd|unassigned|placeholder|to be determined/i`. -/
def genericPatterns : List String :=
  ["resource_", "generic", "tbd", "unassigned", "placeholder", "to be determined"]

/-- Substring containment on character lists (the semantics of matching a
literal-substring regex alternative against a string). -/
def hasSubstr (pat : List Char) : List Char → Bool
  | [] => pat.isEmpty
  | c :: rest => pat.isPrefixOf (c :: rest) || hasSubstr pat rest

/-- `t.assignedResource && genericPatterns.test(t.assignedResource)`:
the empty string is falsy; the regex is a case-insensitive alternation of
literal substrings. -/
def isGenericResource (s : String) : Bool :=
  s ≠ "" && genericPatterns.any (fun p => hasSubstr p.toList s.toLower.toList)

/-- `calculateGenericResourcePercentage` of the calculations module. -/
def calculateGenericResourcePercentage (tasks : List Task) (manager : Option String) : ℚ :=
  let filteredTasks : List Task := match manager with
    | some m => tasks.filter (fun t => t.functionalManager = m)
    | none => tasks
  if filteredTasks.length = 0 then 0
  else
    let generic := (filteredTasks.filter (fun t => isGenericResource t.assignedResource)).length
    (generic : ℚ) / (filteredTasks.length : ℚ) * 100

/-- `calculateCriticalPathHealth` of the calculations module. -/
def calculateCriticalPathHealth (tasks : List Task) : ℚ :=
  if tasks.length = 0 then 0
  else
    let criticalTasks := tasks.filter (fun t => t.criticalPathRisk)
    if criticalTasks.length = 0 then 100
    else
      let avgVolatility :=
        (criticalTasks.map (fun t => t.criticalPathVolatility)).sum / (criticalTasks.length : ℚ)
      let criticalPct := (criticalTasks.length : ℚ) / (tasks.length : ℚ) * 100
      let volatilityScore := max 0 (min 50 ((1 - avgVolatility / 10) * 50))
      let concentrationScore := max 0 (min 50 (50 - |criticalPct - 20| * 2))
      ((round (volatilityScore + concentrationScore) : ℤ) : ℚ)

/-- `calculateResourceUtilisation` of the calculations module. -/
def calculateResourceUtilisation (tasks : List Task) (manager : Option String) : ℚ :=
  let filteredTasks : List Task := match manager with
    | some m => tasks.filter (fun t => t.functionalManager = m)
    | none => tasks
  let validTasks := filteredTasks.filter (fun t => 0 < t.resourceUtilisation)
  if validTasks.length = 0 then 0
  else (validTasks.map (fun t => t.resourceUtilisation)).sum / (validTasks.length : ℚ)

/-- The weighted composite of `calculatePerformanceScore`, abstracted over
its five component signals (weights 0.35 / 0.25 / 0.20 / 0.10 / 0.10; the
variance and generic components are the clamped complements computed in the
function body). -/
def performanceScoreFormula (forecastScore durationVariance genericPct criticalScore ragScore : ℚ) : ℤ :=
  round (forecastScore * 0.35
    + max 0 (100 - |durationVariance|) * 0.25
    + max 0 (100 - genericPct) * 0.20
    + criticalScore * 0.10
    + ragScore * 0.10)

/-- `calculatePerformanceScore` of the calculations module. -/
def calculatePerformanceScore (tasks : List Task) : ℚ :=
  if tasks.length = 0 then 0
  else
    let greenPct := ((tasks.filter (fun t => t.projectHealthRAG = RAG.Green)).length : ℚ)
      / (tasks.length : ℚ) * 100
    let amberPct := ((tasks.filter (fun t => t.projectHealthRAG = RAG.Amber)).length : ℚ)
      / (tasks.length : ℚ) * 100
    let ragScore := greenPct + amberPct * 0.5
    ((performanceScoreFormula (calculateForecastAccuracy tasks none)
        (calculateDurationVariance tasks none)
        (calculateGenericResourcePercentage tasks none)
        (calculateCriticalPathHealth tasks) ragScore : ℤ) : ℚ)

/-- `task.functionalManager || 'Unassigned'`: the grouping key used by
`calculateManagerMetrics` (the empty string is falsy). -/
def managerKey (t : Task) : String :=
  if t.functionalManager = "" then "Unassigned" else t.functionalManager

/-- Distinct elements of a list in first-occurrence order: the key order
of a JavaScript object built by insertion (`Object.entries`) and of
`[...new Set(l)]`. -/
def uniqueFirst : List String → List String
  | [] => []
  | k :: ks => k :: (uniqueFirst ks).filter (fun j => ¬ j = k)

/-- The `tasksByManager` grouping built by the `reduce` in
`calculateManagerMetrics`: one entry per distinct key in first-insertion
order, each holding that key's tasks in input order. -/
def groupTasksByManager (tasks : List Task) : List (String × List Task) :=
  (uniqueFirst (tasks.map managerKey)).map
    (fun m => (m, tasks.filter (fun t => managerKey t = m)))

/-- The `ManagerMetrics` record. -/
structure ManagerMetrics where
  manager : String
  totalTasks : ℕ
  completedTasks : ℕ
  onTimeStartCount : ℕ
  onTimeEndCount : ℕ
  forecastAccuracy : ℚ
  avgDurationVariance : ℚ
  genericResourcePct : ℚ
  criticalPathTasks : ℕ
  redRAGCount : ℕ
  amberRAGCount : ℕ
  greenRAGCount : ℕ
  performanceScore : ℚ
deriving DecidableEq, Repr

/-- The per-group record construction inside `calculateManagerMetrics`. -/
def managerMetricsOf (manager : String) (managerTasks : List Task) : ManagerMetrics :=
  let completedTasks := managerTasks.filter (fun t => t.status = Status.Completed)
  { manager := manager
    totalTasks := managerTasks.length
    completedTasks := completedTasks.length
    onTimeStartCount := (completedTasks.filter onTimeStart).length
    onTimeEndCount := (completedTasks.filter onTimeEnd).length
    forecastAccuracy := calculateForecastAccuracy managerTasks none
    avgDurationVariance := calculateDurationVariance managerTasks none
    genericResourcePct := calculateGenericResourcePercentage managerTasks none
    criticalPathTasks := (managerTasks.filter (fun t => t.criticalPathRisk)).length
    redRAGCount := (managerTasks.filter (fun t => t.projectHealthRAG = RAG.Red)).length
    amberRAGCount := (managerTasks.filter (fun t => t.projectHealthRAG = RAG.Amber)).length
    greenRAGCount := (managerTasks.filter (fun t => t.projectHealthRAG = RAG.Green)).length
    performanceScore := calculatePerformanceScore managerTasks }

/-- `calculateManagerMetrics` of the calculations module (the final
`sort((a, b) => b.performanceScore - a.performanceScore)` is a stable
descending sort by performance score). -/
def calculateManagerMetrics (tasks : List Task) : List ManagerMetrics :=
  if tasks.length = 0 then []
  else
    ((groupTasksByManager tasks).map (fun p => managerMetricsOf p.1 p.2)).mergeSort
      (fun a b => b.performanceScore ≤ a.performanceScore)

/-- A project risk entry: the tag and the interpolated statistic of one of
the formatted strings pushed by `identifyProjectRisks` (the surrounding
message text and `toFixed(1)` presentation are abstracted away). -/
inductive Risk
  | lowForecastAccuracy (pct : ℚ)
  | highGenericResource (pct : ℚ)
  | largeDurationVariance (pct : ℚ)
  | oversizedCriticalPath (pct : ℚ)
  | highVolatilityTasks (count : ℕ)
  | overBudgetTasks (count : ℕ)
deriving DecidableEq, Repr

/-- The `ProjectMetrics` record. -/
structure ProjectMetrics where
  projectName : String
  totalTasks : ℕ
  completedPct : ℚ
  forecastAccuracy : ℚ
  avgDurationVariance : ℚ
  genericResourcePct : ℚ
  criticalPathTasksPct : ℚ
  ragStatus : RAG
  predictedRAG : RAG
  topRisks : List Risk
deriving DecidableEq, Repr

/-- `predictRAGStatus` of the calculations module: the fixed-order
first-match-wins classifier. -/
def predictRAGStatus (metrics : ProjectMetrics) : RAG :=
  if metrics.forecastAccuracy < 50 ∨ 80 < metrics.genericResourcePct
      ∨ 25 < metrics.avgDurationVariance ∨ 40 < metrics.criticalPathTasksPct then
    RAG.Red
  else if metrics.forecastAccuracy < 70 ∨ 50 < metrics.genericResourcePct
      ∨ 15 < metrics.avgDurationVariance ∨ 30 < metrics.criticalPathTasksPct then
    RAG.Amber
  else
    RAG.Green

/-- `identifyProjectRisks` of the calculations module: fixed-order
conditional pushes, truncated to the first 5. -/
def identifyProjectRisks (projectTasks : List Task) (metrics : ProjectMetrics) : List Risk :=
  let risks : List Risk :=
    (if metrics.forecastAccuracy < 60 then [Risk.lowForecastAccuracy metrics.forecastAccuracy] else [])
    ++ (if 60 < metrics.genericResourcePct then [Risk.highGenericResource metrics.genericResourcePct] else [])
    ++ (if 20 < metrics.avgDurationVariance then [Risk.largeDurationVariance metrics.avgDurationVariance] else [])
    ++ (if 35 < metrics.criticalPathTasksPct then [Risk.oversizedCriticalPath metrics.criticalPathTasksPct] else [])
    ++ (let n := (projectTasks.filter (fun t => 5 < t.criticalPathVolatility)).length
        if n ≠ 0 then [Risk.highVolatilityTasks n] else [])
    ++ (let n := (projectTasks.filter (fun t => t.plannedBudget * 1.1 < t.totalSpent)).length
        if n ≠ 0 then [Risk.overBudgetTasks n] else [])
  risks.take 5

/-- `task.projectName || 'Unnamed Project'`: the grouping key used by
`calculateProjectMetrics`. -/
def projectKey (t : Task) : String :=
  if t.projectName = "" then "Unnamed Project" else t.projectName

/-- The count of tasks in a group carrying a given RAG value (the
`ragCounts` entries of `calculateProjectMetrics`). -/
def ragCountIn (g : List Task) (r : RAG) : ℕ :=
  (g.filter (fun t => t.projectHealthRAG = r)).length

/-- The `ragCounts`/`reduce` computation of `calculateProjectMetrics`:
`(Object.keys(ragCounts) as Array<...>).reduce((a, b) => ragCounts[a] > ragCounts[b] ? a : b)`
over the keys in declaration order Red, Amber, Green. -/
def mostCommonRag (projectTasks : List Task) : RAG :=
  let step : RAG → RAG → RAG := fun a b =>
    if ragCountIn projectTasks b < ragCountIn projectTasks a then a else b
  step (step RAG.Red RAG.Amber) RAG.Green

/-- The per-group record construction inside `calculateProjectMetrics`
(`predictedRAG` is first initialised to Green, then overwritten with
`predictRAGStatus(metrics)`, then `topRisks` is filled in). -/
def projectMetricsOf (projectName : String) (projectTasks : List Task) : ProjectMetrics :=
  let base : ProjectMetrics :=
    { projectName := projectName
      totalTasks := projectTasks.length
      completedPct := ((projectTasks.filter (fun t => t.status = Status.Completed)).length : ℚ)
        / (projectTasks.length : ℚ) * 100
      forecastAccuracy := calculateForecastAccuracy projectTasks none
      avgDurationVariance := calculateDurationVariance projectTasks none
      genericResourcePct := calculateGenericResourcePercentage projectTasks none
      criticalPathTasksPct := ((projectTasks.filter (fun t => t.criticalPathRisk)).length : ℚ)
        / (projectTasks.length : ℚ) * 100
      ragStatus := mostCommonRag projectTasks
      predictedRAG := RAG.Green
      topRisks := [] }
  let withPred : ProjectMetrics := { base with predictedRAG := predictRAGStatus base }
  { withPred with topRisks := identifyProjectRisks projectTasks withPred }

/-- The `tasksByProject[project]` group: the tasks of one project key, in
input order. -/
def projectGroup (tasks : List Task) (name : String) : List Task :=
  tasks.filter (fun t => projectKey t = name)

/-- `calculateProjectMetrics` of the calculations module. -/
def calculateProjectMetrics (tasks : List Task) : List ProjectMetrics :=
  if tasks.length = 0 then []
  else
    (uniqueFirst (tasks.map projectKey)).map
      (fun name => projectMetricsOf name (projectGroup tasks name))

/-- The `ragDistribution` object of `PortfolioMetrics`. -/
structure RagDistribution where
  Red : ℕ
  Amber : ℕ
  Green : ℕ
deriving DecidableEq, Repr

/-- The `PortfolioMetrics` record. -/
structure PortfolioMetrics where
  totalProjects : ℕ
  totalTasks : ℕ
  avgForecastAccuracy : ℚ
  genericResourcePct : ℚ
  criticalPathTasksPct : ℚ
  ragDistribution : RagDistribution
  managerMetrics : List ManagerMetrics
deriving DecidableEq, Repr

/-- `calculatePortfolioMetrics` of the calculations module
(`new Set(tasks.map(t => t.projectName)).size` is the number of distinct
`projectName` strings). -/
def calculatePortfolioMetrics (tasks : List Task) : PortfolioMetrics :=
  if tasks.length = 0 then
    { totalProjects := 0
      totalTasks := 0
      avgForecastAccuracy := 0
      genericResourcePct := 0
      criticalPathTasksPct := 0
      ragDistribution := { Red := 0, Amber := 0, Green := 0 }
      managerMetrics := [] }
  else
    { totalProjects := (uniqueFirst (tasks.map (fun t => t.projectName))).length
      totalTasks := tasks.length
      avgForecastAccuracy := calculateForecastAccuracy tasks none
      genericResourcePct := calculateGenericResourcePercentage tasks none
      criticalPathTasksPct := ((tasks.filter (fun t => t.criticalPathRisk)).length : ℚ)
        / (tasks.length : ℚ) * 100
      ragDistribution :=
        { Red := (tasks.filter (fun t => t.projectHealthRAG = RAG.Red)).length
          Amber := (tasks.filter (fun t => t.projectHealthRAG = RAG.Amber)).length
          Green := (tasks.filter (fun t => t.projectHealthRAG = RAG.Green)).length }
      managerMetrics := calculateManagerMetrics tasks }

/-- The four behavioural anti-pattern types. -/
inductive PatternType
  | chronic_optimism
  | generic_resource_overuse
  | critical_path_instability
  | resource_hoarding
deriving DecidableEq, Repr

/-- Pattern severity tier. -/
inductive Severity
  | high
  | medium
  | low
deriving DecidableEq, Repr

/-- The `severityOrder` map used by the final sort of
`detectBehaviouralPatterns`: high 3, medium 2, low 1. -/
def severityRank : Severity → ℕ
  | Severity.high => 3
  | Severity.medium => 2
  | Severity.low => 1

/-- The `BehaviouralPattern` record (the free-text `description` and
`recommendation` fields are presentation only and are not modelled). -/
structure BehaviouralPattern where
  patternType : PatternType
  severity : Severity
  affectedManagers : List String
deriving DecidableEq, Repr

/-- The `hoarders` filter of `detectBehaviouralPatterns`: managers whose
tasks (matched back by `functionalManager === m.manager`) have mean
resource utilisation below 60, with more than 5 total tasks. -/
def hoardersOf (tasks : List Task) (managerMetrics : List ManagerMetrics) : List ManagerMetrics :=
  managerMetrics.filter (fun m =>
    calculateResourceUtilisation (tasks.filter (fun t => t.functionalManager = m.manager)) none < 60
      ∧ 5 < m.totalTasks)

/-- `detectBehaviouralPatterns` of the calculations module. -/
def detectBehaviouralPatterns (tasks : List Task) (managerMetrics : List ManagerMetrics) :
    List BehaviouralPattern :=
  let optimists := managerMetrics.filter (fun m =>
    15 < m.avgDurationVariance ∧ m.forecastAccuracy < 60)
  let p1 : List BehaviouralPattern :=
    if optimists.length ≠ 0 then
      [{ patternType := PatternType.chronic_optimism
         severity := if (managerMetrics.length : ℚ) * 0.5 < (optimists.length : ℚ)
           then Severity.high else Severity.medium
         affectedManagers := optimists.map (fun m => m.manager) }]
    else []
  let genericAbusers := managerMetrics.filter (fun m => 70 < m.genericResourcePct)
  let p2 : List BehaviouralPattern :=
    if genericAbusers.length ≠ 0 then
      [{ patternType := PatternType.generic_resource_overuse
         severity := if (managerMetrics.length : ℚ) * 0.3 < (genericAbusers.length : ℚ)
           then Severity.high else Severity.medium
         affectedManagers := genericAbusers.map (fun m => m.manager) }]
    else []
  let highVolatility := (tasks.filter (fun t => 5 < t.criticalPathVolatility)).length
  let p3 : List BehaviouralPattern :=
    if (tasks.length : ℚ) * 0.2 < (highVolatility : ℚ) then
      [{ patternType := PatternType.critical_path_instability
         severity := if (tasks.length : ℚ) * 0.3 < (highVolatility : ℚ)
           then Severity.high else Severity.medium
         affectedManagers := uniqueFirst
           ((tasks.filter (fun t => 5 < t.criticalPathVolatility)).map
             (fun t => t.functionalManager)) }]
    else []
  let hoarders := hoardersOf tasks managerMetrics
  let p4 : List BehaviouralPattern :=
    if hoarders.length ≠ 0 then
      [{ patternType := PatternType.resource_hoarding
         severity := if (managerMetrics.length : ℚ) * 0.3 < (hoarders.length : ℚ)
           then Severity.high else Severity.low
         affectedManagers := hoarders.map (fun m => m.manager) }]
    else []
  (p1 ++ p2 ++ p3 ++ p4).mergeSort
    (fun a b => severityRank b.severity ≤ severityRank a.severity)

/-! ### Concrete inputs used by witnesses and counterexamples -/

/-- A neutral Completed task used to build concrete inputs. -/
def baseTask : Task :=
  { projectName := "P"
    functionalManager := "M"
    plannedDuration := 0
    actualDuration := 0
    assignedResource := "Alice"
    plannedBudget := 0
    totalSpent := 0
    status := Status.Completed
    plannedStart := none
    actualStart := none
    plannedEnd := some 0
    actualEnd := some 0
    resourceUtilisation := 0
    projectHealthRAG := RAG.Green
    criticalPathVolatility := 0
    criticalPathRisk := false }

/-- The project-metrics input of the spec's RAG scenario: forecastAccuracy
45, genericResourcePct 30, durationVariance 10, criticalPathTaskPct 10. -/
def ragScenarioMetrics : ProjectMetrics :=
  { projectName := ""
    totalTasks := 0
    completedPct := 0
    forecastAccuracy := 45
    avgDurationVariance := 10
    genericResourcePct := 30
    criticalPathTasksPct := 10
    ragStatus := RAG.Green
    predictedRAG := RAG.Green
    topRisks := [] }

/-! ### Theorems settling the claims -/

/-- Claim C7: the empty task list is answered by `calculatePortfolioMetrics`
with all-zero counts and percentages, an all-zero RAG distribution, and an
empty manager-metrics list (the function is total, so no error can be
raised). -/
theorem C7_portfolio_empty :
    calculatePortfolioMetrics [] =
      { totalProjects := 0
        totalTasks := 0
        avgForecastAccuracy := 0
        genericResourcePct := 0
        criticalPathTasksPct := 0
        ragDistribution := { Red := 0, Amber := 0, Green := 0 }
        managerMetrics := [] } := rfl

/-- Claim C3: `predictRAGStatus` evaluates its rules in fixed order with
first match winning — Red exactly on the Red conditions, Amber exactly on
the Amber conditions with no Red condition, Green exactly when neither
fires (so the three cases partition every input), and the spec's scenario
(forecastAccuracy 45, genericResourcePct 30, durationVariance 10,
criticalPathTaskPct 10) is classified Red. -/
theorem C3_predictRAGStatus_rules (m : ProjectMetrics) :
    (predictRAGStatus m = RAG.Red ↔
      m.forecastAccuracy < 50 ∨ 80 < m.genericResourcePct
        ∨ 25 < m.avgDurationVariance ∨ 40 < m.criticalPathTasksPct) ∧
    (predictRAGStatus m = RAG.Amber ↔
      ¬(m.forecastAccuracy < 50 ∨ 80 < m.genericResourcePct
          ∨ 25 < m.avgDurationVariance ∨ 40 < m.criticalPathTasksPct) ∧
        (m.forecastAccuracy < 70 ∨ 50 < m.genericResourcePct
          ∨ 15 < m.avgDurationVariance ∨ 30 < m.criticalPathTasksPct)) ∧
    (predictRAGStatus m = RAG.Green ↔
      ¬(m.forecastAccuracy < 50 ∨ 80 < m.genericResourcePct
          ∨ 25 < m.avgDurationVariance ∨ 40 < m.criticalPathTasksPct) ∧
      ¬(m.forecastAccuracy < 70 ∨ 50 < m.genericResourcePct
          ∨ 15 < m.avgDurationVariance ∨ 30 < m.criticalPathTasksPct)) ∧
    predictRAGStatus ragScenarioMetrics = RAG.Red := by
  refine ⟨?_, ?_, ?_, by decide⟩ <;>
    · unfold predictRAGStatus
      split_ifs <;> simp_all

/-- Claim C2 counterexample: the empty task list has no task with the
critical-path flag set, yet `calculateCriticalPathHealth` returns 0 on it,
not 100. -/
theorem C2_counterexample :
    (∀ t ∈ ([] : List Task), t.criticalPathRisk = false) ∧
    calculateCriticalPathHealth [] ≠ 100 := by
  refine ⟨by simp, ?_⟩
  have h : calculateCriticalPathHealth [] = 0 := rfl
  rw [h]
  norm_num

/-- Claim C2 amended: for every NON-EMPTY task list in which no task has
the criticalPathRisk flag set, `calculateCriticalPathHealth` returns
exactly 100, regardless of all other task fields; on the empty list the
function returns 0 instead. -/
theorem C2_amended (tasks : List Task) (hne : tasks ≠ [])
    (hflag : ∀ t ∈ tasks, t.criticalPathRisk = false) :
    calculateCriticalPathHealth tasks = 100 := by
  unfold calculateCriticalPathHealth
  have hlen : ¬ tasks.length = 0 := by
    simpa [List.length_eq_zero] using hne
  have hcrit : tasks.filter (fun t => t.criticalPathRisk) = [] := by
    simp only [List.filter_eq_nil_iff]
    intro t ht
    simp [hflag t ht]
  simp [hlen, hcrit]

/-- Claim C2 witness: a concrete one-task list with the flag unset is
scored 100. -/
theorem C2_amended_witness :
    ([baseTask] ≠ ([] : List Task)) ∧
      (∀ t ∈ [baseTask], t.criticalPathRisk = false) ∧
      calculateCriticalPathHealth [baseTask] = 100 :=
  ⟨by decide, by decide, C2_amended [baseTask] (by decide) (by decide)⟩

/-- The forecast-accuracy computation as the spec words it, for comparison
with `calculateForecastAccuracy`: Completed tasks missing either date are
excluded from both numerator and denominator, and the result is 0 when
that denominator is empty. -/
def specForecastAccuracy (tasks : List Task) (manager : Option String) : ℚ :=
  let withDates := (completedFiltered tasks manager).filter
    (fun t => t.plannedEnd.isSome ∧ t.actualEnd.isSome)
  if withDates.length = 0 then 0
  else ((withDates.filter onTimeEnd).length : ℚ) / (withDates.length : ℚ) * 100

/-- A Completed task whose actual end is unknown. -/
def noEndTask : Task := { baseTask with actualEnd := none }

/-- Claim C1 counterexample: on a list of two Completed tasks — one on
time with both dates present, one missing its actual end —
`calculateForecastAccuracy` returns 50, while the claimed formula (both
counts restricted to tasks with both dates present) yields 100: the code
keeps missing-date Completed tasks in the denominator. -/
theorem C1_counterexample :
    calculateForecastAccuracy [baseTask, noEndTask] none = 50 ∧
    specForecastAccuracy [baseTask, noEndTask] none = 100 ∧
    calculateForecastAccuracy [baseTask, noEndTask] none ≠
      specForecastAccuracy [baseTask, noEndTask] none := by
  refine ⟨?_, ?_, ?_⟩ <;> with_unfolding_all decide

/-- Claim C1 amended: `calculateForecastAccuracy` divides the count of
on-time Completed tasks (both dates present, actualEnd ≤ plannedEnd) by
the count of ALL Completed tasks passing the manager filter — Completed
tasks missing either date stay in the denominator, so they ARE counted as
failures — and returns 0 when there is no Completed task at all. -/
theorem C1_amended (tasks : List Task) (manager : Option String) :
    (completedFiltered tasks manager = [] →
      calculateForecastAccuracy tasks manager = 0) ∧
    (completedFiltered tasks manager ≠ [] →
      calculateForecastAccuracy tasks manager =
        ((completedFiltered tasks manager).countP
            (fun t => t.plannedEnd.isSome ∧ t.actualEnd.isSome ∧ onTimeEnd t) : ℚ)
          / ((completedFiltered tasks manager).length : ℚ) * 100) := by
  constructor
  · intro h
    unfold calculateForecastAccuracy
    simp [h]
  · intro h
    unfold calculateForecastAccuracy
    have hlen : ¬ (completedFiltered tasks manager).length = 0 := by
      simpa [List.length_eq_zero] using h
    have hcount : ((completedFiltered tasks manager).filter onTimeEnd).length =
        (completedFiltered tasks manager).countP
          (fun t => t.plannedEnd.isSome ∧ t.actualEnd.isSome ∧ onTimeEnd t) := by
      rw [← List.countP_eq_length_filter]
      apply List.countP_congr
      intro t _
      cases hp : t.plannedEnd <;> cases ha : t.actualEnd <;>
        simp [onTimeEnd, hp, ha]
    simp only [hlen, if_false, hcount]

/-- Claim C1 witness: on the two-task counterexample list, the amended
formula gives 1 on-time task out of 2 Completed tasks, i.e. 50. -/
theorem C1_amended_witness :
    completedFiltered [baseTask, noEndTask] none ≠ [] ∧
    calculateForecastAccuracy [baseTask, noEndTask] none =
      ((completedFiltered [baseTask, noEndTask] none).countP
          (fun t => t.plannedEnd.isSome ∧ t.actualEnd.isSome ∧ onTimeEnd t) : ℚ)
        / ((completedFiltered [baseTask, noEndTask] none).length : ℚ) * 100 :=
  ⟨by decide, (C1_amended [baseTask, noEndTask] none).2 (by decide)⟩

/-- A Red task and an Amber task of the same project. -/
def redTask : Task := { baseTask with projectHealthRAG := RAG.Red }

/-- See `redTask`. -/
def amberTask : Task := { baseTask with projectHealthRAG := RAG.Amber }

/-- Claim C4 counterexample: a project group with one Red and one Amber
task (equal counts) is given current ragStatus Amber by
`calculateProjectMetrics`, not Red: the `reduce` keeps the accumulator
only on a strictly greater count, so the later enum value wins ties. -/
theorem C4_counterexample :
    (calculateProjectMetrics [redTask, amberTask]).map (fun p => p.ragStatus)
      = [RAG.Amber] ∧ RAG.Amber ≠ RAG.Red := by
  constructor
  · with_unfolding_all decide
  · decide

/-- The fold of `mostCommonRag` returns a value of maximal count. -/
theorem mostCommonRag_max (g : List Task) (r : RAG) :
    ragCountIn g r ≤ ragCountIn g (mostCommonRag g) := by
  unfold mostCommonRag
  dsimp only
  split_ifs <;> cases r <;> omega

/-- On a Red/Amber count tie that beats Green, the fold of
`mostCommonRag` keeps the later value Amber. -/
theorem mostCommonRag_tie_amber (g : List Task)
    (h1 : ragCountIn g RAG.Red = ragCountIn g RAG.Amber)
    (h2 : ragCountIn g RAG.Green < ragCountIn g RAG.Amber) :
    mostCommonRag g = RAG.Amber := by
  unfold mostCommonRag
  dsimp only
  rw [if_neg (by omega : ¬ ragCountIn g RAG.Amber < ragCountIn g RAG.Red), if_pos h2]

/-- When Green's count is maximal (ties included), the fold of
`mostCommonRag` returns Green. -/
theorem mostCommonRag_tie_green (g : List Task)
    (h1 : ragCountIn g RAG.Red ≤ ragCountIn g RAG.Green)
    (h2 : ragCountIn g RAG.Amber ≤ ragCountIn g RAG.Green) :
    mostCommonRag g = RAG.Green := by
  unfold mostCommonRag
  dsimp only
  by_cases h : ragCountIn g RAG.Amber < ragCountIn g RAG.Red
  · rw [if_pos h, if_neg (by omega : ¬ ragCountIn g RAG.Green < ragCountIn g RAG.Red)]
  · rw [if_neg h, if_neg (by omega : ¬ ragCountIn g RAG.Green < ragCountIn g RAG.Amber)]

/-- Claim C4 amended: for every non-empty project task group,
`calculateProjectMetrics` sets the group's current ragStatus to a RAG
value with the highest task count in the group, but count ties are
resolved in favour of the LATER value in enum iteration order
Red→Amber→Green (the strict-comparison fold keeps the later value on
ties): equal Red and Amber counts that beat Green yield Amber, and any
maximal Green count yields Green. -/
theorem C4_amended (tasks : List Task) (pm : ProjectMetrics)
    (hpm : pm ∈ calculateProjectMetrics tasks) :
    (∀ r : RAG,
      ragCountIn (projectGroup tasks pm.projectName) r ≤
        ragCountIn (projectGroup tasks pm.projectName) pm.ragStatus) ∧
    (ragCountIn (projectGroup tasks pm.projectName) RAG.Red =
        ragCountIn (projectGroup tasks pm.projectName) RAG.Amber →
      ragCountIn (projectGroup tasks pm.projectName) RAG.Green <
        ragCountIn (projectGroup tasks pm.projectName) RAG.Amber →
      pm.ragStatus = RAG.Amber) ∧
    (ragCountIn (projectGroup tasks pm.projectName) RAG.Red ≤
        ragCountIn (projectGroup tasks pm.projectName) RAG.Green →
      ragCountIn (projectGroup tasks pm.projectName) RAG.Amber ≤
        ragCountIn (projectGroup tasks pm.projectName) RAG.Green →
      pm.ragStatus = RAG.Green) := by
  unfold calculateProjectMetrics at hpm
  by_cases hlen : tasks.length = 0
  · simp [hlen] at hpm
  · simp only [hlen, if_false, List.mem_map] at hpm
    obtain ⟨name, -, rfl⟩ := hpm
    have hname : (projectMetricsOf name (projectGroup tasks name)).projectName = name := rfl
    have hrag : (projectMetricsOf name (projectGroup tasks name)).ragStatus =
        mostCommonRag (projectGroup tasks name) := rfl
    rw [hname, hrag]
    exact ⟨mostCommonRag_max _, mostCommonRag_tie_amber _, mostCommonRag_tie_green _⟩

/-- Claim C4 witness: on the concrete Red/Amber tie the tie-break rule of
the amended claim applies and yields Amber. -/
theorem C4_amended_witness :
    (projectMetricsOf "P" (projectGroup [redTask, amberTask] "P")).ragStatus
      = RAG.Amber :=
  (C4_amended [redTask, amberTask]
      (projectMetricsOf "P" (projectGroup [redTask, amberTask] "P"))
      (by with_unfolding_all decide)).2.1 (by decide) (by decide)

/-- Membership in `uniqueFirst` is membership in the underlying list. -/
theorem mem_uniqueFirst {a : String} : ∀ {l : List String}, a ∈ uniqueFirst l ↔ a ∈ l := by
  intro l
  induction l with
  | nil => simp [uniqueFirst]
  | cons k ks ih =>
    simp only [uniqueFirst, List.mem_cons, List.mem_filter, ih]
    by_cases h : a = k <;> simp [h]

/-- `uniqueFirst` has no duplicates. -/
theorem nodup_uniqueFirst : ∀ (l : List String), (uniqueFirst l).Nodup := by
  intro l
  induction l with
  | nil => simp [uniqueFirst]
  | cons k ks ih =>
    simp only [uniqueFirst, List.nodup_cons]
    constructor
    · intro h
      have h2 := (List.mem_filter.mp h).2
      simp at h2
    · exact ih.filter _

/-- A duplicate-free list holding `a` satisfies the predicate
"equals `a`" exactly once. -/
theorem countP_eq_one_of_nodup (a : String) :
    ∀ (keys : List String), keys.Nodup → a ∈ keys →
      keys.countP (fun k => a = k) = 1 := by
  intro keys
  induction keys with
  | nil => intro _ ha; simp at ha
  | cons k kl ih =>
    intro hnd ha
    rw [List.countP_cons]
    rcases List.mem_cons.mp ha with h | h
    · subst h
      have hz : kl.countP (fun j => a = j) = 0 := by
        rw [List.countP_eq_zero]
        intro j hj
        simp only [decide_eq_true_eq]
        intro hEq
        exact (List.nodup_cons.mp hnd).1 (hEq ▸ hj)
      simp [hz]
    · have hne : ¬ (a = k) := fun hEq => (List.nodup_cons.mp hnd).1 (hEq ▸ h)
      rw [ih (List.nodup_cons.mp hnd).2 h]
      simp [hne]

/-- Prepending one task to the input adds its indicator to every group
size: the group-size sum over any key list gains the number of keys the
new task matches. -/
theorem sum_group_lengths_cons (key : Task → String) (t : Task) (ts : List Task) :
    ∀ (keys : List String),
      (keys.map (fun k => ((t :: ts).filter (fun u => key u = k)).length)).sum
        = keys.countP (fun k => key t = k)
          + (keys.map (fun k => (ts.filter (fun u => key u = k)).length)).sum := by
  intro keys
  induction keys with
  | nil => simp
  | cons k kl ih =>
    simp only [List.map_cons, List.sum_cons, List.countP_cons, ih]
    by_cases h : key t = k <;> simp [List.filter_cons, h] <;> omega

/-- Grouping a task list by a key over a duplicate-free covering key list
loses and duplicates nothing: the group sizes sum to the input length. -/
theorem sum_group_lengths (key : Task → String) (keys : List String)
    (hnd : keys.Nodup) :
    ∀ (tasks : List Task), (∀ t ∈ tasks, key t ∈ keys) →
      (keys.map (fun k => (tasks.filter (fun t => key t = k)).length)).sum
        = tasks.length := by
  intro tasks
  induction tasks with
  | nil => simp
  | cons t ts ih =>
    intro hcov
    rw [sum_group_lengths_cons key t ts keys,
      countP_eq_one_of_nodup (key t) keys hnd (hcov t (List.mem_cons_self t ts)),
      ih (fun u hu => hcov u (List.mem_cons_of_mem t hu))]
    simp [Nat.add_comm]

/-- Claim C5: `calculateManagerMetrics` partitions the input totally —
the totalTasks of the returned groups sum to the input length, every
input task lies in exactly one group of the underlying `tasksByManager`
grouping, and a task with an empty functionalManager lies in the group
keyed by the literal "Unassigned". -/
theorem C5_manager_partition (tasks : List Task) :
    ((calculateManagerMetrics tasks).map (fun m => m.totalTasks)).sum = tasks.length ∧
    (∀ t ∈ tasks, (groupTasksByManager tasks).countP (fun p => t ∈ p.2) = 1) ∧
    (∀ t ∈ tasks, t.functionalManager = "" →
      ∃ p ∈ groupTasksByManager tasks, p.1 = "Unassigned" ∧ t ∈ p.2) := by
  refine ⟨?_, ?_, ?_⟩
  · unfold calculateManagerMetrics
    by_cases hlen : tasks.length = 0
    · simp [hlen, List.length_eq_zero.mp hlen]
    · simp only [hlen, if_false]
      rw [List.Perm.sum_eq (List.Perm.map _ (List.mergeSort_perm _ _))]
      unfold groupTasksByManager
      simp only [List.map_map]
      have hmaps : ((uniqueFirst (tasks.map managerKey)).map
            ((fun m => m.totalTasks) ∘ (fun p => managerMetricsOf p.1 p.2) ∘
              (fun m => (m, tasks.filter (fun t => managerKey t = m)))))
          = (uniqueFirst (tasks.map managerKey)).map
            (fun k => (tasks.filter (fun t => managerKey t = k)).length) := by
        apply List.map_congr_left
        intro k _
        rfl
      rw [hmaps]
      exact sum_group_lengths managerKey _ (nodup_uniqueFirst _) tasks
        (fun t ht => mem_uniqueFirst.mpr (List.mem_map_of_mem managerKey ht))
  · intro t ht
    unfold groupTasksByManager
    rw [List.countP_map]
    have hcong : (uniqueFirst (tasks.map managerKey)).countP
          ((fun p => decide (t ∈ p.2)) ∘ (fun m => (m, tasks.filter (fun u => managerKey u = m))))
        = (uniqueFirst (tasks.map managerKey)).countP (fun k => managerKey t = k) := by
      apply List.countP_congr
      intro k _
      simp [List.mem_filter, ht]
    rw [hcong]
    exact countP_eq_one_of_nodup (managerKey t) _ (nodup_uniqueFirst _)
      (mem_uniqueFirst.mpr (List.mem_map_of_mem managerKey ht))
  · intro t ht hm
    refine ⟨("Unassigned", tasks.filter (fun u => managerKey u = "Unassigned")), ?_, rfl, ?_⟩
    · unfold groupTasksByManager
      apply List.mem_map_of_mem
      apply mem_uniqueFirst.mpr
      have : managerKey t = "Unassigned" := by simp [managerKey, hm]
      exact this ▸ List.mem_map_of_mem managerKey ht
    · simp only [List.mem_filter, ht, true_and]
      simp [managerKey, hm]

/-- Claim C5 witness: a one-task list with an empty manager string lands
in the "Unassigned" group, which is the unique group holding it, and the
group sizes sum to 1. -/
theorem C5_witness :
    (((calculateManagerMetrics [{ baseTask with functionalManager := "" }]).map
        (fun m => m.totalTasks)).sum = 1) ∧
    (∃ p ∈ groupTasksByManager [{ baseTask with functionalManager := "" }],
      p.1 = "Unassigned" ∧ { baseTask with functionalManager := "" } ∈ p.2) :=
  ⟨(C5_manager_partition [{ baseTask with functionalManager := "" }]).1,
   (C5_manager_partition [{ baseTask with functionalManager := "" }]).2.2
     { baseTask with functionalManager := "" } (by decide) (by decide)⟩

/-- `round` on `ℚ` is monotone (both the code's `Math.round` and `round`
send halves toward positive infinity). -/
theorem round_rat_mono {a b : ℚ} (h : a ≤ b) : round a ≤ round b := by
  rw [round_eq, round_eq]
  exact Int.floor_le_floor (by linarith)

/-- Claim C6: holding forecast accuracy, critical-path health and RAG
score fixed, the weighted performance score is monotonically
non-increasing in |durationVariance| and in genericResourcePct. -/
theorem C6_performance_monotone (fa cp rag dv₁ dv₂ gp₁ gp₂ : ℚ)
    (hdv : |dv₁| ≤ |dv₂|) (hgp : gp₁ ≤ gp₂) :
    performanceScoreFormula fa dv₂ gp₁ cp rag ≤ performanceScoreFormula fa dv₁ gp₁ cp rag ∧
    performanceScoreFormula fa dv₁ gp₂ cp rag ≤ performanceScoreFormula fa dv₁ gp₁ cp rag := by
  constructor
  · apply round_rat_mono
    have h1 : max 0 (100 - |dv₂|) ≤ max 0 (100 - |dv₁|) :=
      max_le_max (le_refl 0) (by linarith)
    nlinarith [h1]
  · apply round_rat_mono
    have h1 : max 0 (100 - gp₂) ≤ max 0 (100 - gp₁) :=
      max_le_max (le_refl 0) (by linarith)
    nlinarith [h1]

/-- Claim C6 witness: at concrete inputs (forecast 80, critical 50, rag
60), growing |durationVariance| from 10 to 30 and genericResourcePct from
20 to 40 does not increase the score. -/
theorem C6_witness :
    |(10 : ℚ)| ≤ |(30 : ℚ)| ∧ (20 : ℚ) ≤ 40 ∧
    performanceScoreFormula 80 30 20 50 60 ≤ performanceScoreFormula 80 10 20 50 60 ∧
    performanceScoreFormula 80 10 40 50 60 ≤ performanceScoreFormula 80 10 20 50 60 :=
  ⟨by norm_num, by norm_num,
   (C6_performance_monotone 80 50 60 10 30 20 40 (by norm_num) (by norm_num)).1,
   (C6_performance_monotone 80 50 60 10 30 20 40 (by norm_num) (by norm_num)).2⟩

/-- The distinct-in-order list has the cardinality of the underlying
finite set (`new Set(l).size`). -/
theorem length_uniqueFirst (l : List String) : (uniqueFirst l).length = l.toFinset.card := by
  have hset : (uniqueFirst l).toFinset = l.toFinset := by
    ext a
    simp [List.mem_toFinset, mem_uniqueFirst]
  rw [← hset, List.toFinset_card_of_nodup (nodup_uniqueFirst l)]

/-- `projectKey` factors through the project name. -/
theorem projectKey_eq_merge (t : Task) :
    projectKey t = (if t.projectName = "" then "Unnamed Project" else t.projectName) := rfl

/-- Claim C9: for every non-empty task list, `calculatePortfolioMetrics`
counts totalProjects as the number of DISTINCT projectName strings (the
empty string counting as its own project), while `calculateProjectMetrics`
merges the empty string into the "Unnamed Project" bucket — so when both
"" and "Unnamed Project" occur among the names, totalProjects strictly
exceeds the number of returned project groups. -/
theorem C9_total_projects (tasks : List Task) (hne : tasks ≠ []) :
    ((calculatePortfolioMetrics tasks).totalProjects
      = (tasks.map (fun t => t.projectName)).toFinset.card) ∧
    ("" ∈ tasks.map (fun t => t.projectName) →
      "Unnamed Project" ∈ tasks.map (fun t => t.projectName) →
      (calculateProjectMetrics tasks).length
        < (calculatePortfolioMetrics tasks).totalProjects) := by
  have hlen : ¬ tasks.length = 0 := by
    simpa [List.length_eq_zero] using hne
  have htot : (calculatePortfolioMetrics tasks).totalProjects
      = (tasks.map (fun t => t.projectName)).toFinset.card := by
    unfold calculatePortfolioMetrics
    simp only [hlen, if_false]
    exact length_uniqueFirst _
  refine ⟨htot, fun hempty hunnamed => ?_⟩
  rw [htot]
  have hproj : (calculateProjectMetrics tasks).length
      = (tasks.map projectKey).toFinset.card := by
    unfold calculateProjectMetrics
    simp only [hlen, if_false, List.length_map]
    exact length_uniqueFirst _
  rw [hproj]
  set f : String → String := fun s => if s = "" then "Unnamed Project" else s with hf
  set names := tasks.map (fun t => t.projectName) with hnames
  have hmapkey : tasks.map projectKey = names.map f := by
    rw [hnames, List.map_map]
    rfl
  have himg : (tasks.map projectKey).toFinset = names.toFinset.image f := by
    rw [hmapkey]
    ext a
    simp [List.mem_toFinset, List.mem_map, Finset.mem_image]
  rw [himg]
  -- the image collapses "" and "Unnamed Project", so it loses at least one element
  have hm1 : "" ∈ names.toFinset := List.mem_toFinset.mpr hempty
  have hm2 : "Unnamed Project" ∈ names.toFinset := List.mem_toFinset.mpr hunnamed
  have hsub : names.toFinset.image f ⊆ (names.toFinset.erase "").image f := by
    intro b hb
    obtain ⟨a, ha, rfl⟩ := Finset.mem_image.mp hb
    by_cases hae : a = ""
    · subst hae
      apply Finset.mem_image.mpr
      refine ⟨"Unnamed Project", Finset.mem_erase.mpr ⟨by simp, hm2⟩, ?_⟩
      simp [hf]
    · exact Finset.mem_image.mpr ⟨a, Finset.mem_erase.mpr ⟨hae, ha⟩, rfl⟩
  have hcard1 : (names.toFinset.image f).card ≤ (names.toFinset.erase "").card :=
    le_trans (Finset.card_le_card hsub) Finset.card_image_le
  have hcard2 : (names.toFinset.erase "").card = names.toFinset.card - 1 :=
    Finset.card_erase_of_mem hm1
  have hpos : 0 < names.toFinset.card := Finset.card_pos.mpr ⟨"", hm1⟩
  omega

/-- Claim C9 witness: three tasks named "P", "" and "Unnamed Project" give
3 distinct portfolio projects but only 2 project groups. -/
theorem C9_witness :
    (calculateProjectMetrics
        [baseTask, { baseTask with projectName := "" },
          { baseTask with projectName := "Unnamed Project" }]).length
      < (calculatePortfolioMetrics
          [baseTask, { baseTask with projectName := "" },
            { baseTask with projectName := "Unnamed Project" }]).totalProjects :=
  (C9_total_projects
      [baseTask, { baseTask with projectName := "" },
        { baseTask with projectName := "Unnamed Project" }]
      (by decide)).2 (by decide) (by decide)

set_option maxHeartbeats 2000000 in
/-- Claim C10: `detectBehaviouralPatterns` returns at most one pattern
per patternType — hence at most 4 patterns — sorted in non-increasing
severity order (high > medium > low). -/
theorem C10_patterns_shape (tasks : List Task) (managerMetrics : List ManagerMetrics) :
    (detectBehaviouralPatterns tasks managerMetrics).length ≤ 4 ∧
    (∀ ty : PatternType,
      (detectBehaviouralPatterns tasks managerMetrics).countP
        (fun p => p.patternType = ty) ≤ 1) ∧
    (detectBehaviouralPatterns tasks managerMetrics).Pairwise
      (fun a b => severityRank b.severity ≤ severityRank a.severity) := by
  refine ⟨?_, ?_, ?_⟩
  · simp only [detectBehaviouralPatterns, List.length_mergeSort, List.length_append]
    split_ifs <;> simp
  · intro ty
    unfold detectBehaviouralPatterns
    rw [List.Perm.countP_eq _ (List.mergeSort_perm _ _)]
    simp only [List.countP_append]
    cases ty <;> split_ifs <;> simp [List.countP_cons]
  · unfold detectBehaviouralPatterns
    refine List.Pairwise.imp ?_ (List.sorted_mergeSort ?_ ?_ _)
    · intro a b h
      exact of_decide_eq_true h
    · intro a b c hab hbc
      simp only [decide_eq_true_eq] at *
      omega
    · intro a b
      simp only [Bool.or_eq_true, decide_eq_true_eq]
      omega

/-- Elements of a conditional singleton list equal its element, under a
true condition. -/
theorem mem_ite_singleton {c : Prop} [Decidable c] {a p : BehaviouralPattern}
    (h : p ∈ (if c then [a] else [])) : p = a ∧ c := by
  by_cases hc : c
  · rw [if_pos hc] at h
    exact ⟨List.mem_singleton.mp h, hc⟩
  · rw [if_neg hc] at h
    simp at h

/-- The spec scenario for resource hoarding: one manager "M" with exactly
6 tasks, all with resource utilisation 40. -/
def c8tasks : List Task := List.replicate 6 { baseTask with resourceUtilisation := 40 }

/-- Claim C8: `detectBehaviouralPatterns` emits a resource_hoarding
pattern exactly when some manager has mean utilisation (as computed by
`calculateResourceUtilisation` over that manager's tasks, i.e. the mean
over tasks with utilisation > 0, defaulting to 0) below 60 and more than
5 total tasks; its severity is high when such managers exceed 30% of all
managers and low otherwise, and its affectedManagers are exactly those
managers; in particular the manager "M" of the 6-task utilisation-40
scenario is flagged and listed. -/
theorem C8_resource_hoarding (tasks : List Task) (managerMetrics : List ManagerMetrics) :
    ((∃ p ∈ detectBehaviouralPatterns tasks managerMetrics,
        p.patternType = PatternType.resource_hoarding) ↔
      ∃ m ∈ managerMetrics,
        calculateResourceUtilisation
            (tasks.filter (fun t => t.functionalManager = m.manager)) none < 60
          ∧ 5 < m.totalTasks) ∧
    (∀ p ∈ detectBehaviouralPatterns tasks managerMetrics,
      p.patternType = PatternType.resource_hoarding →
        (p.severity =
          if (managerMetrics.length : ℚ) * 0.3
              < ((hoardersOf tasks managerMetrics).length : ℚ)
            then Severity.high else Severity.low) ∧
        p.affectedManagers = (hoardersOf tasks managerMetrics).map (fun m => m.manager)) ∧
    (∃ p ∈ detectBehaviouralPatterns c8tasks (calculateManagerMetrics c8tasks),
      p.patternType = PatternType.resource_hoarding ∧ "M" ∈ p.affectedManagers) := by
  have elim4 : ∀ p ∈ detectBehaviouralPatterns tasks managerMetrics,
      p.patternType = PatternType.resource_hoarding →
      p ∈ (if (hoardersOf tasks managerMetrics).length ≠ 0 then
        ([{ patternType := PatternType.resource_hoarding
            severity := if (managerMetrics.length : ℚ) * 0.3
                < ((hoardersOf tasks managerMetrics).length : ℚ)
              then Severity.high else Severity.low
            affectedManagers := (hoardersOf tasks managerMetrics).map (fun m => m.manager) }] :
          List BehaviouralPattern)
        else []) := by
    intro p hp htype
    simp only [detectBehaviouralPatterns, List.mem_mergeSort, List.mem_append] at hp
    rcases hp with ((h1 | h2) | h3) | h4
    · obtain ⟨hpq, -⟩ := mem_ite_singleton h1
      rw [hpq] at htype
      simp at htype
    · obtain ⟨hpq, -⟩ := mem_ite_singleton h2
      rw [hpq] at htype
      simp at htype
    · obtain ⟨hpq, -⟩ := mem_ite_singleton h3
      rw [hpq] at htype
      simp at htype
    · exact h4
  refine ⟨?_, ?_, ?_⟩
  · constructor
    · rintro ⟨p, hp, htype⟩
      have h4 := elim4 p hp htype
      obtain ⟨-, hc⟩ := mem_ite_singleton h4
      have hne : hoardersOf tasks managerMetrics ≠ [] := by
        intro hnil
        rw [hnil] at hc
        exact hc rfl
      obtain ⟨m, hm⟩ := List.exists_mem_of_ne_nil _ hne
      have hmf := List.mem_filter.mp hm
      refine ⟨m, hmf.1, ?_⟩
      simpa using hmf.2
    · rintro ⟨m, hm, hcond⟩
      have hmem : m ∈ hoardersOf tasks managerMetrics := by
        unfold hoardersOf
        rw [List.mem_filter]
        exact ⟨hm, by simpa using hcond⟩
      have hne : (hoardersOf tasks managerMetrics).length ≠ 0 := by
        intro h0
        rw [List.length_eq_zero] at h0
        rw [h0] at hmem
        simp at hmem
      refine ⟨{ patternType := PatternType.resource_hoarding
                severity := if (managerMetrics.length : ℚ) * 0.3
                    < ((hoardersOf tasks managerMetrics).length : ℚ)
                  then Severity.high else Severity.low
                affectedManagers := (hoardersOf tasks managerMetrics).map (fun m => m.manager) },
              ?_, rfl⟩
      simp only [detectBehaviouralPatterns, List.mem_mergeSort, List.mem_append]
      right
      rw [if_pos hne]
      simp
  · intro p hp htype
    have h4 := elim4 p hp htype
    obtain ⟨rfl, -⟩ := mem_ite_singleton h4
    exact ⟨rfl, rfl⟩
  · with_unfolding_all decide

/-- Claim C8 witness: on the 6-task scenario the emitted pattern's
severity and affected-manager list are those computed from the hoarders
filter (one hoarder out of one manager, i.e. high severity). -/
theorem C8_witness :
    ({ patternType := PatternType.resource_hoarding
       severity := Severity.high
       affectedManagers := ["M"] } : BehaviouralPattern).severity
      = (if ((calculateManagerMetrics c8tasks).length : ℚ) * 0.3
            < ((hoardersOf c8tasks (calculateManagerMetrics c8tasks)).length : ℚ)
          then Severity.high else Severity.low) ∧
    ({ patternType := PatternType.resource_hoarding
       severity := Severity.high
       affectedManagers := ["M"] } : BehaviouralPattern).affectedManagers
      = (hoardersOf c8tasks (calculateManagerMetrics c8tasks)).map (fun m => m.manager) :=
  (C8_resource_hoarding c8tasks (calculateManagerMetrics c8tasks)).2.1
    { patternType := PatternType.resource_hoarding
      severity := Severity.high
      affectedManagers := ["M"] }
    (by with_unfolding_all decide) rfl

end PHM
